import Mathlib

/-!
Shallow embedding of the butler-server build/channel/file lifecycle engine
(`src/handlers/wharf.go`, `src/models/database.go`, the `models`/`auth`
packages).  The persistence gateway (SQLite rows) is modelled as lists of
records with per-table auto-increment counters; the blob store gateway
(MinIO) as an association list from object path to object size; the
server's local filesystem as the list of paths present on it.  Each HTTP
handler becomes a pure function from the pre-state and the parsed request
to an `Except`-style outcome, mirroring the Go control flow branch by
branch.
-/

set_option linter.unusedVariables false

/-- User record (`models.User`, fields used by the engine). -/
structure User where
  id : Int
  username : String
  displayName : String
  apiKey : String
  role : String
  isActive : Bool
deriving Repr, DecidableEq

/-- `User.IsAdmin` from the models package: true iff the role is "admin". -/
def User.IsAdmin (u : User) : Bool :=
  u.role == "admin"

/-- `User.CanAccessNamespace`: admins may access any namespace, other users
only the namespace equal to their own username. -/
def User.CanAccessNamespace (u : User) (ns : String) : Bool :=
  u.IsAdmin || u.username == ns

/-- Game record (`models.Game`). -/
structure Game where
  id : Int
  userId : Int
  title : String
  shortText : String
  type : String
  classification : String
  url : String
deriving Repr, DecidableEq

/-- Upload record (`models.Upload`). -/
structure Upload where
  id : Int
  gameId : Int
  filename : String
  displayName : String
  size : Int
  storage : String
  type : String
  platforms : String
deriving Repr, DecidableEq

/-- Build record (`models.Build`). -/
structure Build where
  id : Int
  uploadId : Int
  userVersion : String
  parentBuildId : Option Int
  state : String
deriving Repr, DecidableEq

/-- BuildFile record (`models.BuildFile`). -/
structure BuildFile where
  id : Int
  buildId : Int
  type : String
  subType : String
  size : Int
  state : String
  storagePath : String
  uploadUrl : String
deriving Repr, DecidableEq

/-- Channel record (`models.Channel`). -/
structure Channel where
  id : Int
  name : String
  uploadId : Int
  currentBuildId : Option Int
deriving Repr, DecidableEq

/-- The relational store: one list per table, kept in rowid (insertion)
order, plus the AUTOINCREMENT counter of each table. -/
structure Database where
  users : List User
  games : List Game
  uploads : List Upload
  builds : List Build
  buildFiles : List BuildFile
  channels : List Channel
  nextGameId : Int
  nextUploadId : Int
  nextBuildId : Int
  nextBuildFileId : Int
  nextChannelId : Int
deriving Repr, DecidableEq

/-- `GetUserByUsername`: first user row whose username matches. -/
def getUserByUsername (db : Database) (username : String) : Option User :=
  db.users.find? (fun u => u.username == username)

/-- `GetGamesByUserID`: all games owned by the user, in rowid order. -/
def getGamesByUserID (db : Database) (userId : Int) : List Game :=
  db.games.filter (fun g => g.userId == userId)

/-- `GetGameByUserAndTitle`: game owned by `userId` with the given title. -/
def getGameByUserAndTitle (db : Database) (userId : Int) (title : String) : Option Game :=
  db.games.find? (fun g => g.userId == userId && g.title == title)

/-- `GetUploadsByGameID`: all uploads of the game, in rowid order. -/
def getUploadsByGameID (db : Database) (gameId : Int) : List Upload :=
  db.uploads.filter (fun u => u.gameId == gameId)

/-- `GetBuildByID`. -/
def getBuildByID (db : Database) (id : Int) : Option Build :=
  db.builds.find? (fun b => b.id == id)

/-- `GetBuildFileByID`. -/
def getBuildFileByID (db : Database) (id : Int) : Option BuildFile :=
  db.buildFiles.find? (fun f => f.id == id)

/-- `GetBuildFilesByBuildID`: all files of the build, in rowid order. -/
def getBuildFilesByBuildID (db : Database) (buildId : Int) : List BuildFile :=
  db.buildFiles.filter (fun f => f.buildId == buildId)

/-- `GetChannelByName`: channel with the given name under the given upload
(the `(name, upload_id)` pair is UNIQUE in the schema). -/
def getChannelByName (db : Database) (name : String) (uploadId : Int) : Option Channel :=
  db.channels.find? (fun c => c.name == name && c.uploadId == uploadId)

/-- `GetChannelsByUploadID`: all channels of the upload, in rowid order. -/
def getChannelsByUploadID (db : Database) (uploadId : Int) : List Channel :=
  db.channels.filter (fun c => c.uploadId == uploadId)

/-- `UpdateBuild`: overwrite the row whose id matches. -/
def updateBuild (db : Database) (b : Build) : Database :=
  { db with builds := db.builds.map (fun x => if x.id == b.id then b else x) }

/-- `UpdateBuildFile`: overwrite the row whose id matches. -/
def updateBuildFile (db : Database) (f : BuildFile) : Database :=
  { db with buildFiles := db.buildFiles.map (fun x => if x.id == f.id then f else x) }

/-- `UpdateChannel`: overwrite the row whose id matches. -/
def updateChannel (db : Database) (c : Channel) : Database :=
  { db with channels := db.channels.map (fun x => if x.id == c.id then c else x) }

/-- Blob store gateway (MinIO): the set of stored objects as an association
list from object path to object size.  Newer writes are consed on the
front, so lookup sees the latest write. -/
abbrev BlobStore : Type := List (String × Int)

/-- `StatObject`: size of the object at `path`, if one exists. -/
def statObject (blob : BlobStore) (path : String) : Option Int :=
  (blob.find? (fun e => e.fst == path)).map (fun e => e.snd)

/-- `FileExists` (wharf.go): a Stat call succeeds iff the object exists. -/
def fileExists (blob : BlobStore) (path : String) : Bool :=
  (statObject blob path).isSome

/-- `GetFileSize` (wharf.go): the authoritative size reported by the store. -/
def getFileSize (blob : BlobStore) (path : String) : Option Int :=
  statObject blob path

/-- A client upload landing in the blob store (`put`). -/
def putObject (blob : BlobStore) (path : String) (size : Int) : BlobStore :=
  (path, size) :: blob

/-- Error taxonomy of the handlers: HTTP 400 / 403 / 404 / 500 with the
string sent in the `errors` array. -/
inductive ApiError where
  | badRequest (msg : String)
  | forbidden (msg : String)
  | notFound (msg : String)
  | internalError (msg : String)
deriving Repr, DecidableEq

/-- Go's `strings.Split(s, "/")` on the character list: every "/" starts a
new segment, the empty string yields one empty segment. -/
def splitCharsOnSlash : List Char → List (List Char)
  | [] => [[]]
  | c :: rest =>
    let r := splitCharsOnSlash rest
    if c = '/' then [] :: r
    else
      match r with
      | [] => [[c]]
      | h :: t => (c :: h) :: t

/-- Target parsing shared by the namespace-addressed handlers: the target
must split on "/" into exactly two segments. -/
def parseTarget (target : String) : Option (String × String) :=
  match (splitCharsOnSlash target.data).map (fun cs => String.mk cs) with
  | [username, gamename] => some (username, gamename)
  | _ => none

/-- The per-build data reported under a channel's `head` key.
`userVersion` / `parentBuildId` are `some` exactly when the Go code adds
the corresponding key to the JSON object. -/
structure HeadData where
  id : Int
  state : String
  userVersion : Option String
  parentBuildId : Option Int
deriving Repr, DecidableEq

/-- One entry of a channel listing / lookup response.  `head = none` means
the response JSON has no `head` key. -/
structure ChannelEntry where
  name : String
  uploadId : Int
  head : Option HeadData
deriving Repr, DecidableEq

/-- The `head` object built from a resolved build (wharf.go lines 158-173):
`user_version` only when non-empty, `parent_build_id` only when set. -/
def headOfBuild (b : Build) : HeadData :=
  { id := b.id
    state := b.state
    userVersion := if b.userVersion == "" then none else some b.userVersion
    parentBuildId := b.parentBuildId }

/-- One channel of the ListChannels response.  A channel whose
current-build pointer is set but dangling is skipped (`continue`). -/
def channelEntry (db : Database) (uploadId : Int) (c : Channel) : Option ChannelEntry :=
  match c.currentBuildId with
  | none => some { name := c.name, uploadId := uploadId, head := none }
  | some bid =>
    match getBuildByID db bid with
    | none => none
    | some b => some { name := c.name, uploadId := uploadId, head := some (headOfBuild b) }

/-- `ListChannels` (GET /wharf/channels).  NOTE: faithful to the source,
the game is looked up with the *acting* user's id (wharf.go line 118),
not the namespace owner's id.  The Go code collects entries into a map
keyed by channel name; we keep them as a list in iteration order. -/
def listChannels (db : Database) (user : User) (target : String) :
    Except ApiError (List ChannelEntry) :=
  if target == "" then
    .error (.badRequest "missing build target (need game_id or target)")
  else
    match parseTarget target with
    | none => .error (.badRequest "invalid target format, expected username/gamename")
    | some (username, gamename) =>
      if !user.CanAccessNamespace username then
        .error (.forbidden "access denied")
      else
        match getGameByUserAndTitle db user.id gamename with
        | none => .error (.notFound "game not found")
        | some game =>
          let uploads := getUploadsByGameID db game.id
          .ok (uploads.foldl
            (fun acc upload =>
              acc ++ (getChannelsByUploadID db upload.id).filterMap (channelEntry db upload.id))
            [])

/-- The channel scan of GetChannel: iterate the game's uploads in order and
return the first channel with the requested name, with its upload. -/
def findChannelAcrossUploads (db : Database) (uploads : List Upload) (channelName : String) :
    Option (Channel × Upload) :=
  match uploads with
  | [] => none
  | upload :: rest =>
    match (getChannelsByUploadID db upload.id).find? (fun c => c.name == channelName) with
    | some c => some (c, upload)
    | none => findChannelAcrossUploads db rest channelName

/-- `GetChannel` (GET /wharf/channels/\x7bchannel\x7d).  Unlike ListChannels
this handler resolves the target (namespace-owner) user when an admin acts
on another namespace (wharf.go lines 222-235).  A dangling current-build
pointer yields an entry without a `head` key. -/
def getChannelHandler (db : Database) (user : User) (target : String) (channelName : String) :
    Except ApiError ChannelEntry :=
  if target == "" then
    .error (.badRequest "missing build target (need game_id or target)")
  else
    match parseTarget target with
    | none => .error (.badRequest "invalid target format, expected username/gamename")
    | some (username, gamename) =>
      if !user.CanAccessNamespace username then
        .error (.forbidden "access denied")
      else
        let targetUserId? : Except ApiError Int :=
          if user.username == username then .ok user.id
          else
            match getUserByUsername db username with
            | none => .error (.notFound "target user not found")
            | some targetUser => .ok targetUser.id
        match targetUserId? with
        | .error e => .error e
        | .ok targetUserId =>
          match getGameByUserAndTitle db targetUserId gamename with
          | none => .error (.notFound "game not found")
          | some game =>
            let uploads := getUploadsByGameID db game.id
            match findChannelAcrossUploads db uploads channelName with
            | none => .error (.notFound "channel not found")
            | some (foundChannel, foundUpload) =>
              let head :=
                match foundChannel.currentBuildId with
                | none => none
                | some bid => (getBuildByID db bid).map headOfBuild
              .ok { name := foundChannel.name, uploadId := foundUpload.id, head := head }

/-- Parsed body of POST /wharf/builds. -/
structure CreateBuildRequest where
  target : String
  channel : String
  userVersion : String
deriving Repr, DecidableEq

/-- The `build` object of the CreateBuild response.  `parentBuild = some p`
means the JSON object carries a `parentBuild` sub-object with id `p`;
`none` means the key is absent altogether (the Go code only inserts the
key when `ParentBuildID != nil`, it never writes a null). -/
structure BuildResponse where
  id : Int
  uploadId : Int
  userVersion : String
  state : String
  parentBuild : Option Int
deriving Repr, DecidableEq

/-- The set of keys present in the serialized CreateBuild `build` object,
in the order the Go code inserts them. -/
def buildResponseKeys (r : BuildResponse) : List String :=
  ["id", "uploadId", "userVersion", "state"] ++
    (match r.parentBuild with
     | some _ => ["parentBuild"]
     | none => [])

/-- Game resolution of CreateBuild (wharf.go lines 392-427): scan the
namespace owner's games for the title; create the game (owned by the
namespace owner) when absent. -/
def resolveGame (db : Database) (ownerId : Int) (gameName : String) : Database × Game :=
  match (getGamesByUserID db ownerId).find? (fun g => g.title == gameName) with
  | some g => (db, g)
  | none =>
    let game : Game :=
      { id := db.nextGameId, userId := ownerId, title := gameName, shortText := ""
        type := "default", classification := "game", url := "" }
    ({ db with games := db.games ++ [game], nextGameId := db.nextGameId + 1 }, game)

/-- Upload resolution of CreateBuild (wharf.go lines 430-473): the first
upload of the game that already has a channel of the requested name wins;
otherwise a fresh upload is created. -/
def resolveUpload (db : Database) (game : Game) (gameName channelName : String) :
    Database × Upload :=
  match (getUploadsByGameID db game.id).find?
      (fun u => (getChannelByName db channelName u.id).isSome) with
  | some u => (db, u)
  | none =>
    let upload : Upload :=
      { id := db.nextUploadId, gameId := game.id, filename := gameName ++ ".zip"
        displayName := gameName, size := 0, storage := "hosted", type := "default"
        platforms := "[\"windows\",\"linux\",\"osx\"]" }
    ({ db with uploads := db.uploads ++ [upload], nextUploadId := db.nextUploadId + 1 }, upload)

/-- The body of CreateBuild past validation and namespace-owner
resolution (wharf.go lines 391-554): game/upload resolution, parent
computation from the existing channel's current build, build insertion
(state "started"), channel upsert to the new build, response assembly. -/
def createBuildResolved (db : Database) (namespaceOwner : User) (gameName : String)
    (req : CreateBuildRequest) : Database × BuildResponse :=
  let r1 := resolveGame db namespaceOwner.id gameName
  let db1 := r1.fst
  let game := r1.snd
  let r2 := resolveUpload db1 game gameName req.channel
  let db2 := r2.fst
  let upload := r2.snd
  let existingChannel := getChannelByName db2 req.channel upload.id
  let parentBuildId := existingChannel.bind (fun c => c.currentBuildId)
  let build : Build :=
    { id := db2.nextBuildId, uploadId := upload.id, userVersion := req.userVersion
      parentBuildId := parentBuildId, state := "started" }
  let db3 := { db2 with builds := db2.builds ++ [build]
                        nextBuildId := db2.nextBuildId + 1 }
  let db4 :=
    match existingChannel with
    | some c => updateChannel db3 { c with currentBuildId := some build.id }
    | none =>
      let channel : Channel :=
        { id := db3.nextChannelId, name := req.channel, uploadId := upload.id
          currentBuildId := some build.id }
      { db3 with channels := db3.channels ++ [channel]
                 nextChannelId := db3.nextChannelId + 1 }
  (db4, { id := build.id, uploadId := build.uploadId
          userVersion := build.userVersion, state := build.state
          parentBuild := build.parentBuildId })

/-- `CreateBuild` (POST /wharf/builds): access check, namespace-owner
resolution, then the resolved creation pipeline. -/
def createBuild (db : Database) (user : User) (req : CreateBuildRequest) :
    Except ApiError (Database × BuildResponse) :=
  if req.target == "" then .error (.badRequest "missing target")
  else
    match parseTarget req.target with
    | none => .error (.badRequest "invalid target format")
    | some (username, gameName) =>
      if !user.CanAccessNamespace username then .error (.forbidden "access denied")
      else
        match getUserByUsername db username with
        | none => .error (.notFound ("namespace owner not found: " ++ username))
        | some namespaceOwner =>
          .ok (createBuildResolved db namespaceOwner gameName req)

/-- Parsed body of POST /wharf/builds/\x7bid\x7d/files. -/
structure CreateBuildFileRequest where
  type : String
  subType : String
deriving Repr, DecidableEq

/-- The `file` object of the CreateBuildFile response (the Go code also
attaches an `upload_headers` map with `Content-Type:
application/octet-stream`). -/
structure BuildFileResponse where
  id : Int
  type : String
  subType : String
  state : String
  uploadUrl : String
deriving Repr, DecidableEq

/-- Model of the presigned-upload-URL issuance of the blob store gateway
(`PresignedPutObject`), an external collaborator: an opaque URL derived
from the object path. -/
def presignUploadURL (storagePath : String) : String :=
  "presigned-put:" ++ storagePath

/-- `CreateBuildFile` (POST /wharf/builds/\x7bid\x7d/files): the build must
exist, the declared `type` must be non-empty, an empty `sub_type` defaults
to "default"; a storage path scoped to the build is allocated using a
fresh uuid, a presigned upload URL is issued and a BuildFile row is
inserted in state "uploading".  `fileUuid` stands for `uuid.New()`. -/
def createBuildFile (db : Database) (buildId : Int) (req : CreateBuildFileRequest)
    (fileUuid : String) : Except ApiError (Database × BuildFileResponse) :=
  match getBuildByID db buildId with
  | none => .error (.notFound "build not found")
  | some _ =>
    if req.type == "" then .error (.badRequest "missing type")
    else
      let subType := if req.subType == "" then "default" else req.subType
      let storagePath :=
        "builds/" ++ toString buildId ++ "/" ++ req.type ++ "_" ++ subType ++ "_" ++ fileUuid
      let uploadURL := presignUploadURL storagePath
      let buildFile : BuildFile :=
        { id := db.nextBuildFileId, buildId := buildId, type := req.type, subType := subType
          size := 0, state := "uploading", storagePath := storagePath, uploadUrl := uploadURL }
      let db1 := { db with buildFiles := db.buildFiles ++ [buildFile]
                           nextBuildFileId := db.nextBuildFileId + 1 }
      .ok (db1, { id := buildFile.id, type := buildFile.type, subType := buildFile.subType
                  state := buildFile.state, uploadUrl := buildFile.uploadUrl })

/-- The full server-side state the engine mutates: the relational store,
the blob store, and the server's local filesystem (paths present under
the process working directory). -/
structure SysState where
  db : Database
  blob : BlobStore
  localFs : List String
deriving Repr, DecidableEq

/-- `generateArchiveFile` (wharf.go lines 911-958).  `archiveResult`
abstracts `createArchiveFromBuildFiles`: `some size` means the temporary
zip was produced (its byte size is environment-determined), `none` means
an environmental failure (temp file / zip / source read error).  On
success the archive is registered two-phase: insert the BuildFile row
(type "archive", state "uploaded", provisional path), then persist the
path containing the fresh id.  Faithful to the source, the zip is then
`os.Rename`d to the *local* path `storage/builds/{buildId}/files/{fileId}`
and nothing is ever written to the blob store. -/
def generateArchiveFile (s : SysState) (build : Build) (archiveResult : Option Int) :
    Except String SysState :=
  match archiveResult with
  | none => .error "failed to create archive"
  | some archiveSize =>
    let archiveFile : BuildFile :=
      { id := s.db.nextBuildFileId, buildId := build.id, type := "archive"
        subType := "default", size := archiveSize, state := "uploaded"
        storagePath := "builds/" ++ toString build.id ++ "/files", uploadUrl := "" }
    let db1 := { s.db with buildFiles := s.db.buildFiles ++ [archiveFile]
                           nextBuildFileId := s.db.nextBuildFileId + 1 }
    let archiveFile1 :=
      { archiveFile with
          storagePath := "builds/" ++ toString build.id ++ "/files/" ++ toString archiveFile.id }
    let db2 := updateBuildFile db1 archiveFile1
    let finalPath := "storage/builds/" ++ toString build.id ++ "/files/" ++ toString archiveFile.id
    .ok { db := db2, blob := s.blob, localFs := s.localFs ++ [finalPath] }

/-- `checkAndUpdateBuildState` (wharf.go lines 849-908): re-read the
build; do nothing unless it is "started"; do nothing when it has no
files; when every file is "uploaded", write "processing", run archive
generation (failure only logged), then write "completed".  Errors this
function returns are logged and swallowed by the caller, so the model
returns the (possibly unchanged) state directly. -/
def checkAndUpdateBuildState (s : SysState) (buildId : Int) (archiveResult : Option Int) :
    SysState :=
  match getBuildByID s.db buildId with
  | none => s
  | some build =>
    if build.state != "started" then s
    else
      let buildFiles := getBuildFilesByBuildID s.db buildId
      if buildFiles.isEmpty then s
      else if buildFiles.all (fun f => f.state == "uploaded") then
        let build1 := { build with state := "processing" }
        let s1 := { s with db := updateBuild s.db build1 }
        let s2 :=
          match generateArchiveFile s1 build1 archiveResult with
          | .ok sOk => sOk
          | .error _ => s1
        let build2 := { build1 with state := "completed" }
        { s2 with db := updateBuild s2.db build2 }
      else s

/-- The `file` object of the FinalizeBuildFile response. -/
structure FinalizeResponse where
  id : Int
  size : Int
  state : String
deriving Repr, DecidableEq

/-- `FinalizeBuildFile` (POST /wharf/builds/\x7bbuildId\x7d/files/\x7bfileId\x7d):
the file must exist and belong to the build; the engine re-verifies with
the blob store that the object landed and reads its authoritative size
(the caller-declared `declaredSize` is parsed but never used); size and
state "uploaded" are persisted together; then the completion evaluation
runs, its errors only logged. -/
def finalizeBuildFile (s : SysState) (buildId fileId : Int) (declaredSize : Int)
    (archiveResult : Option Int) : Except ApiError (SysState × FinalizeResponse) :=
  match getBuildFileByID s.db fileId with
  | none => .error (.notFound "build file not found")
  | some buildFile =>
    if buildFile.buildId != buildId then
      .error (.badRequest "build file does not belong to build")
    else if !(fileExists s.blob buildFile.storagePath) then
      .error (.badRequest "file not found in storage - upload may have failed")
    else
      match getFileSize s.blob buildFile.storagePath with
      | none => .error (.internalError "could not verify file size in storage")
      | some actualSize =>
        let buildFile1 := { buildFile with size := actualSize, state := "uploaded" }
        let s1 := { s with db := updateBuildFile s.db buildFile1 }
        let s2 := checkAndUpdateBuildState s1 buildId archiveResult
        .ok (s2, { id := buildFile1.id, size := buildFile1.size, state := buildFile1.state })

/-- One engine operation, for reasoning about sequences of requests.
`blobPut` is the external event of a client upload landing in the blob
store through a presigned URL. -/
inductive Op where
  | createBuild (user : User) (req : CreateBuildRequest)
  | createBuildFile (buildId : Int) (req : CreateBuildFileRequest) (fileUuid : String)
  | finalizeBuildFile (buildId fileId : Int) (declaredSize : Int) (archiveResult : Option Int)
  | blobPut (path : String) (size : Int)

/-- Run one operation; a handler that returns an error leaves the state
untouched (no partial write escapes an error path in the model, matching
the all-or-nothing row operations of the source). -/
def runOp (s : SysState) (op : Op) : SysState :=
  match op with
  | .createBuild user req =>
    match createBuild s.db user req with
    | .ok res => { s with db := res.fst }
    | .error _ => s
  | .createBuildFile buildId req fileUuid =>
    match createBuildFile s.db buildId req fileUuid with
    | .ok res => { s with db := res.fst }
    | .error _ => s
  | .finalizeBuildFile buildId fileId declaredSize archiveResult =>
    match finalizeBuildFile s buildId fileId declaredSize archiveResult with
    | .ok res => res.fst
    | .error _ => s
  | .blobPut path size => { s with blob := putObject s.blob path size }

/-- Run a sequence of operations in order. -/
def runOps (s : SysState) (ops : List Op) : SysState :=
  ops.foldl runOp s

/-- Rank of a build state along the forward chain
started → processing → completed. -/
def stateRank : String → Nat
  | "processing" => 1
  | "completed" => 2
  | _ => 0

/-- Program counter of one in-flight `checkAndUpdateBuildState` call, for
reasoning about two such calls racing on the same build.  Each constructor
is the point just before one atomic gateway call of the Go function; the
local variables read so far are carried in the constructor. -/
inductive CabsPc where
  | readBuild
  | readFiles (build : Build)
  | writeProcessing (build : Build)
  | archCreateRow (build : Build)
  | archFinishRow (build : Build) (archiveId : Int)
  | writeCompleted (build : Build)
  | done
deriving Repr, DecidableEq

/-- One atomic step of an in-flight `checkAndUpdateBuildState` call.  The
steps are exactly the gateway calls of the source in program order:
GetBuildByID, GetBuildFilesByBuildID, UpdateBuild(processing),
CreateBuildFile(archive row), UpdateBuildFile(final path) + local rename,
UpdateBuild(completed).  `archiveSize` abstracts the byte size of the
generated zip. -/
def cabsStep (buildId : Int) (archiveSize : Int) (s : SysState) (pc : CabsPc) :
    SysState × CabsPc :=
  match pc with
  | .readBuild =>
    match getBuildByID s.db buildId with
    | none => (s, .done)
    | some build => if build.state != "started" then (s, .done) else (s, .readFiles build)
  | .readFiles build =>
    let buildFiles := getBuildFilesByBuildID s.db buildId
    if buildFiles.isEmpty then (s, .done)
    else if buildFiles.all (fun f => f.state == "uploaded") then (s, .writeProcessing build)
    else (s, .done)
  | .writeProcessing build =>
    let build1 := { build with state := "processing" }
    ({ s with db := updateBuild s.db build1 }, .archCreateRow build1)
  | .archCreateRow build =>
    let archiveFile : BuildFile :=
      { id := s.db.nextBuildFileId, buildId := build.id, type := "archive"
        subType := "default", size := archiveSize, state := "uploaded"
        storagePath := "builds/" ++ toString build.id ++ "/files", uploadUrl := "" }
    let db1 := { s.db with buildFiles := s.db.buildFiles ++ [archiveFile]
                           nextBuildFileId := s.db.nextBuildFileId + 1 }
    ({ s with db := db1 }, .archFinishRow build archiveFile.id)
  | .archFinishRow build archiveId =>
    match getBuildFileByID s.db archiveId with
    | none => (s, .writeCompleted build)
    | some archiveFile =>
      let archiveFile1 :=
        { archiveFile with
            storagePath := "builds/" ++ toString build.id ++ "/files/" ++ toString archiveId }
      let db2 := updateBuildFile s.db archiveFile1
      let finalPath := "storage/builds/" ++ toString build.id ++ "/files/" ++ toString archiveId
      ({ db := db2, blob := s.blob, localFs := s.localFs ++ [finalPath] }, .writeCompleted build)
  | .writeCompleted build =>
    let build2 := { build with state := "completed" }
    ({ s with db := updateBuild s.db build2 }, .done)
  | .done => (s, .done)

/-- Interleave two in-flight `checkAndUpdateBuildState` calls on the same
build under an explicit schedule: `true` steps the first call, `false`
the second. -/
def runTwoCabs (buildId : Int) (archiveSize : Int) :
    List Bool → SysState × CabsPc × CabsPc → SysState × CabsPc × CabsPc
  | [], st => st
  | choice :: rest, (s, pcA, pcB) =>
    if choice then
      let r := cabsStep buildId archiveSize s pcA
      runTwoCabs buildId archiveSize rest (r.fst, r.snd, pcB)
    else
      let r := cabsStep buildId archiveSize s pcB
      runTwoCabs buildId archiveSize rest (r.fst, pcA, r.snd)

/-- An administrator account. -/
def adminUser : User :=
  { id := 1, username := "admin", displayName := "Admin", apiKey := "k1"
    role := "admin", isActive := true }

/-- A standard (non-admin) account owning the namespace "alice". -/
def aliceUser : User :=
  { id := 2, username := "alice", displayName := "Alice", apiKey := "k2"
    role := "user", isActive := true }

/-- A second standard account, for cross-namespace access attempts. -/
def bobUser : User :=
  { id := 3, username := "bob", displayName := "Bob", apiKey := "k3"
    role := "user", isActive := true }

/-- The game "demo" owned by alice (user id 2). -/
def demoGame : Game :=
  { id := 10, userId := 2, title := "demo", shortText := "", type := "default"
    classification := "game", url := "" }

/-- An upload of alice's game "demo". -/
def demoUpload : Upload :=
  { id := 20, gameId := 10, filename := "demo.zip", displayName := "demo", size := 0
    storage := "hosted", type := "default", platforms := "[\"windows\",\"linux\",\"osx\"]" }

/-- The channel "main" of that upload, no current build yet. -/
def mainChannel : Channel :=
  { id := 30, name := "main", uploadId := 20, currentBuildId := none }

/-- Store with admin + alice, and alice's game/upload/channel in place. -/
def dbAdminScenario : Database :=
  { users := [adminUser, aliceUser], games := [demoGame], uploads := [demoUpload]
    builds := [], buildFiles := [], channels := [mainChannel]
    nextGameId := 11, nextUploadId := 21, nextBuildId := 1, nextBuildFileId := 1
    nextChannelId := 31 }

/-- A build of alice's upload, freshly created (state "started"). -/
def raceBuild : Build :=
  { id := 1, uploadId := 20, userVersion := "1.0", parentBuildId := none, state := "started" }

/-- A finalized build file of build 1. -/
def dataFile1 : BuildFile :=
  { id := 1, buildId := 1, type := "data", subType := "default", size := 100
    state := "uploaded", storagePath := "builds/1/data_default_u1"
    uploadUrl := "presigned-put:builds/1/data_default_u1" }

/-- A second finalized build file of build 1. -/
def dataFile2 : BuildFile :=
  { id := 2, buildId := 1, type := "sig", subType := "default", size := 40
    state := "uploaded", storagePath := "builds/1/sig_default_u2"
    uploadUrl := "presigned-put:builds/1/sig_default_u2" }

/-- State just before completion evaluation: build 1 "started" with its
single registered file uploaded and landed in the blob store. -/
def archiveScenario : SysState :=
  { db :=
      { users := [aliceUser], games := [demoGame], uploads := [demoUpload]
        builds := [raceBuild], buildFiles := [dataFile1], channels := [mainChannel]
        nextGameId := 11, nextUploadId := 21, nextBuildId := 2, nextBuildFileId := 2
        nextChannelId := 31 }
    blob := [("builds/1/data_default_u1", 100)]
    localFs := [] }

/-- State just before two racing completion evaluations: build 1 "started"
with both of its registered files uploaded and landed. -/
def raceScenario : SysState :=
  { db :=
      { users := [aliceUser], games := [demoGame], uploads := [demoUpload]
        builds := [raceBuild], buildFiles := [dataFile1, dataFile2], channels := [mainChannel]
        nextGameId := 11, nextUploadId := 21, nextBuildId := 2, nextBuildFileId := 3
        nextChannelId := 31 }
    blob := [("builds/1/data_default_u1", 100), ("builds/1/sig_default_u2", 40)]
    localFs := [] }

/-- A schedule in which both calls pass their read-check before either
writes: A read, B read, A check, B check, then A runs to completion, then
B runs to completion. -/
def raceSchedule : List Bool :=
  [true, false, true, false, true, true, true, true, false, false, false, false]

/-- A build already completed, for the no-op branch of the completion
evaluation. -/
def completedBuild : Build :=
  { id := 1, uploadId := 20, userVersion := "1.0", parentBuildId := none, state := "completed" }

/-- State whose build 1 is already "completed". -/
def completedScenario : SysState :=
  { db :=
      { users := [aliceUser], games := [demoGame], uploads := [demoUpload]
        builds := [completedBuild], buildFiles := [dataFile1], channels := [mainChannel]
        nextGameId := 11, nextUploadId := 21, nextBuildId := 2, nextBuildFileId := 2
        nextChannelId := 31 }
    blob := [("builds/1/data_default_u1", 100)]
    localFs := [] }

/-- State whose build 1 is "started" but has no registered files yet. -/
def emptyFilesScenario : SysState :=
  { db :=
      { users := [aliceUser], games := [demoGame], uploads := [demoUpload]
        builds := [raceBuild], buildFiles := [], channels := [mainChannel]
        nextGameId := 11, nextUploadId := 21, nextBuildId := 2, nextBuildFileId := 1
        nextChannelId := 31 }
    blob := []
    localFs := [] }

/-- A registered but not yet finalized BuildFile of build 1. -/
def pendingFile : BuildFile :=
  { id := 1, buildId := 1, type := "data", subType := "default", size := 0
    state := "uploading", storagePath := "builds/1/data_default_u1"
    uploadUrl := "presigned-put:builds/1/data_default_u1" }

/-- State where build 1 has one registered file whose object never landed
in the blob store. -/
def missScenario : SysState :=
  { db :=
      { users := [aliceUser], games := [demoGame], uploads := [demoUpload]
        builds := [raceBuild], buildFiles := [pendingFile], channels := [mainChannel]
        nextGameId := 11, nextUploadId := 21, nextBuildId := 2, nextBuildFileId := 2
        nextChannelId := 31 }
    blob := []
    localFs := [] }

/-- State where build 1 has one registered file whose 1024-byte object
landed in the blob store. -/
def hitScenario : SysState :=
  { db := missScenario.db
    blob := [("builds/1/data_default_u1", 1024)]
    localFs := [] }

/-- The (store, upload) pair CreateBuild resolves for a request, written
out for stating lemmas: game resolution followed by upload resolution. -/
def resolvedUploadOf (db : Database) (owner : User) (gn : String)
    (req : CreateBuildRequest) : Database × Upload :=
  resolveUpload (resolveGame db owner.id gn).fst (resolveGame db owner.id gn).snd gn req.channel

/-- The build row CreateBuild inserts for a request, written out for
stating lemmas. -/
def newBuildOf (db : Database) (owner : User) (gn : String)
    (req : CreateBuildRequest) : Build :=
  { id := (resolvedUploadOf db owner gn req).fst.nextBuildId
    uploadId := (resolvedUploadOf db owner gn req).snd.id
    userVersion := req.userVersion
    parentBuildId := (getChannelByName (resolvedUploadOf db owner gn req).fst req.channel
      (resolvedUploadOf db owner gn req).snd.id).bind (fun c => c.currentBuildId)
    state := "started" }

/-- A store with alice only: no games, uploads, builds or channels yet. -/
def freshStore : Database :=
  { users := [aliceUser], games := [], uploads := [], builds := [], buildFiles := []
    channels := [], nextGameId := 1, nextUploadId := 1, nextBuildId := 1
    nextBuildFileId := 1, nextChannelId := 1 }

/-- The push request used by the parent-linkage witness. -/
def reqMain : CreateBuildRequest :=
  { target := "alice/demo", channel := "main", userVersion := "1.0" }

-- ===================== THEOREMS =====================

/-- C1: REFUTED ON THE CODE (code bug).  The claim says ListChannels by an
authorized administrator enumerates the game owned by the namespace owner
(alice).  Faithful to wharf.go line 118 the model looks the game up with
the *acting* user's id, so the admin listing `alice/demo` gets "game not
found" even though alice's game, upload and channel all exist — while the
sibling GetChannel handler, which does resolve the namespace owner
(wharf.go lines 222-235), succeeds on the very same store and target. -/
theorem listChannels_admin_uses_acting_user_id :
    listChannels dbAdminScenario adminUser "alice/demo" =
      .error (.notFound "game not found") ∧
    getChannelHandler dbAdminScenario adminUser "alice/demo" "main" =
      .ok { name := "main", uploadId := 20, head := none } :=
  ⟨rfl, rfl⟩

/-- C2: REFUTED ON THE CODE (code bug).  After successful archive
assembly for build 1 the archive IS registered two-phase as BuildFile 2 of
type "archive" with the persisted path "builds/1/files/2" containing the
fresh id — but the zip is `os.Rename`d to the server-local path
"storage/builds/1/files/2" and the blob store is left untouched, so no
object exists in the blob store at the archive BuildFile's storage path
(and the download handler's existence check on that path must fail). -/
theorem archive_not_written_to_blob_store :
    getBuildFileByID (checkAndUpdateBuildState archiveScenario 1 (some 64)).db 2 =
      some { id := 2, buildId := 1, type := "archive", subType := "default", size := 64
             state := "uploaded", storagePath := "builds/1/files/2", uploadUrl := "" } ∧
    fileExists (checkAndUpdateBuildState archiveScenario 1 (some 64)).blob
      "builds/1/files/2" = false ∧
    (checkAndUpdateBuildState archiveScenario 1 (some 64)).blob = archiveScenario.blob ∧
    (checkAndUpdateBuildState archiveScenario 1 (some 64)).localFs =
      ["storage/builds/1/files/2"] ∧
    getBuildByID (checkAndUpdateBuildState archiveScenario 1 (some 64)).db 1 =
      some { id := 1, uploadId := 20, userVersion := "1.0", parentBuildId := none
             state := "completed" } :=
  ⟨rfl, rfl, rfl, rfl, rfl⟩

/-- C9: REFUTED ON THE CODE (code bug).  The check-then-transition of
`checkAndUpdateBuildState` is NOT a critical section per build id: there
is no lock or compare-and-swap, so under the interleaving `raceSchedule`
both in-flight calls observe build 1 in state "started" with all files
uploaded, both perform the started→processing transition and both create
an archive BuildFile — the final store holds TWO archive BuildFiles for
build 1, not exactly one as required. -/
theorem completion_race_double_archive :
    (((runTwoCabs 1 64 raceSchedule (raceScenario, .readBuild, .readBuild)).fst.db.buildFiles.filter
        (fun f => f.buildId == 1 && f.type == "archive")).length = 2) ∧
    (runTwoCabs 1 64 raceSchedule (raceScenario, .readBuild, .readBuild)).snd.fst = .done ∧
    (runTwoCabs 1 64 raceSchedule (raceScenario, .readBuild, .readBuild)).snd.snd = .done ∧
    getBuildByID (runTwoCabs 1 64 raceSchedule (raceScenario, .readBuild, .readBuild)).fst.db 1 =
      some { id := 1, uploadId := 20, userVersion := "1.0", parentBuildId := none
             state := "completed" } :=
  ⟨rfl, rfl, rfl, rfl⟩

/-- C10: CONFIRMED.  For a CreateBuildFile request on an existing build:
an empty `sub_type` defaults to "default" (row and response both carry
"default"), while an empty `type` is rejected with the client error
"missing type" and no BuildFile row is created (the handler returns
before any insert). -/
theorem createBuildFile_subtype_defaults
    (db : Database) (buildId : Int) (b : Build) (req : CreateBuildFileRequest)
    (fileUuid : String) (hb : getBuildByID db buildId = some b) :
    (req.type ≠ "" → req.subType = "" →
      ∃ db1 resp, createBuildFile db buildId req fileUuid = .ok (db1, resp) ∧
        resp.subType = "default" ∧ resp.state = "uploading" ∧
        ∃ bf : BuildFile, db1.buildFiles = db.buildFiles ++ [bf] ∧
          bf.subType = "default" ∧ bf.type = req.type ∧ bf.state = "uploading") ∧
    (req.type = "" →
      createBuildFile db buildId req fileUuid = .error (.badRequest "missing type")) := by
  constructor
  · intro hty hsub
    have hty' : (req.type == "") = false := by
      simp [hty]
    have hsub' : (req.subType == "") = true := by
      simp [hsub]
    simp only [createBuildFile, hb, hty', hsub', Bool.false_eq_true, if_false, if_true,
      ite_true, ite_false]
    exact ⟨_, _, rfl, rfl, rfl, _, rfl, rfl, rfl, rfl⟩
  · intro hty
    have hty' : (req.type == "") = true := by
      simp [hty]
    simp only [createBuildFile, hb, hty', if_true, ite_true]

/-- C10 witness: on the concrete race store, registering a file of type
"data" with empty sub_type yields sub_type "default" on row and response,
and registering with empty type is rejected. -/
theorem createBuildFile_subtype_defaults_witness :
    (∃ db1 resp,
      createBuildFile raceScenario.db 1 { type := "data", subType := "" } "u9" =
        .ok (db1, resp) ∧
      resp.subType = "default" ∧ resp.state = "uploading" ∧
      ∃ bf : BuildFile, db1.buildFiles = raceScenario.db.buildFiles ++ [bf] ∧
        bf.subType = "default" ∧ bf.type = "data" ∧ bf.state = "uploading") ∧
    createBuildFile raceScenario.db 1 { type := "", subType := "" } "u9" =
      .error (.badRequest "missing type") :=
  ⟨(createBuildFile_subtype_defaults raceScenario.db 1 raceBuild
      { type := "data", subType := "" } "u9" rfl).1 (by decide) rfl,
   (createBuildFile_subtype_defaults raceScenario.db 1 raceBuild
      { type := "", subType := "" } "u9" rfl).2 rfl⟩

/-- Overwriting the row with a given key and looking any key up commutes:
the row-replacement map of the Update operations preserves every row's
key, so lookups find the same position, with the replaced value. -/
theorem find?_update_by_key {α : Type} (key : α → Int) (nb : α) (k : Int) (l : List α) :
    List.find? (fun x => key x == k) (l.map (fun x => if key x == key nb then nb else x)) =
      (List.find? (fun x => key x == k) l).map
        (fun x => if key x == key nb then nb else x) := by
  induction l with
  | nil => rfl
  | cons a l ih =>
    have hkey : key (if key a == key nb then nb else a) = key a := by
      split
      next h => exact (eq_of_beq h).symm
      next => rfl
    by_cases hk : (key a == k) = true
    · have hk' : (key (if key a == key nb then nb else a) == k) = true := by
        rw [hkey]; exact hk
      rw [List.map_cons, @List.find?_cons_of_pos _ (fun x => key x == k) _ _ hk',
        @List.find?_cons_of_pos _ (fun x => key x == k) _ _ hk]
      rfl
    · have hk' : ¬(key (if key a == key nb then nb else a) == k) = true := by
        rw [hkey]; exact hk
      rw [List.map_cons, @List.find?_cons_of_neg _ (fun x => key x == k) _ _ hk',
        @List.find?_cons_of_neg _ (fun x => key x == k) _ _ hk, ih]

/-- Build lookup after `UpdateBuild`. -/
theorem getBuildByID_updateBuild (db : Database) (nb : Build) (k : Int) :
    getBuildByID (updateBuild db nb) k =
      (getBuildByID db k).map (fun x => if x.id == nb.id then nb else x) :=
  find?_update_by_key (fun b : Build => b.id) nb k db.builds

/-- BuildFile lookup after `UpdateBuildFile`. -/
theorem getBuildFileByID_updateBuildFile (db : Database) (nf : BuildFile) (k : Int) :
    getBuildFileByID (updateBuildFile db nf) k =
      (getBuildFileByID db k).map (fun x => if x.id == nf.id then nf else x) :=
  find?_update_by_key (fun f : BuildFile => f.id) nf k db.buildFiles

/-- Archive generation (with its failure swallowed) never touches the
builds table, whatever the archive outcome. -/
theorem generateArchive_match_builds (s1 : SysState) (b1 : Build) (ar : Option Int) :
    (match generateArchiveFile s1 b1 ar with
      | .ok sOk => sOk
      | .error _ => s1).db.builds = s1.db.builds := by
  cases ar <;> rfl

/-- Build lookup only reads the builds table. -/
theorem getBuildByID_eq_of_builds_eq {db1 db2 : Database} (h : db1.builds = db2.builds)
    (k : Int) : getBuildByID db1 k = getBuildByID db2 k := by
  unfold getBuildByID
  rw [h]

/-- The builds table after `UpdateBuild` is the row-replacement map. -/
theorem updateBuild_builds (db : Database) (b : Build) :
    (updateBuild db b).builds = db.builds.map (fun x => if x.id == b.id then b else x) := rfl

/-- C4: CONFIRMED.  The completion evaluation after a finalize is a no-op
when the build is not in state "started" or has no registered files; when
the build is "started" and every file is "uploaded" it drives the build
to "completed" for every archive outcome `ar` (including archive failure,
`ar = none`); and the resulting builds table never depends on the archive
outcome, so an archive failure cannot change the build transition. -/
theorem checkAndUpdateBuildState_spec
    (s : SysState) (bid : Int) (b : Build) (hb : getBuildByID s.db bid = some b) :
    (b.state ≠ "started" → ∀ ar, checkAndUpdateBuildState s bid ar = s) ∧
    (getBuildFilesByBuildID s.db bid = [] → ∀ ar, checkAndUpdateBuildState s bid ar = s) ∧
    (b.state = "started" →
      (∀ f ∈ getBuildFilesByBuildID s.db bid, f.state = "uploaded") →
      getBuildFilesByBuildID s.db bid ≠ [] →
      ∀ ar, getBuildByID (checkAndUpdateBuildState s bid ar).db bid =
        some { b with state := "completed" }) ∧
    (∀ ar1 ar2, (checkAndUpdateBuildState s bid ar1).db.builds =
      (checkAndUpdateBuildState s bid ar2).db.builds) := by
  refine ⟨?_, ?_, ?_, ?_⟩
  · intro hstate ar
    have h1 : (b.state != "started") = true := by
      simp [bne, hstate]
    unfold checkAndUpdateBuildState
    simp only [hb]
    rw [if_pos h1]
  · intro hempty ar
    unfold checkAndUpdateBuildState
    simp only [hb]
    by_cases h1 : (b.state != "started") = true
    · rw [if_pos h1]
    · rw [if_neg h1, hempty]
      rfl
  · intro hstate hupl hne ar
    have h1 : ¬(b.state != "started") = true := by
      simp [bne, hstate]
    have h2 : ¬(getBuildFilesByBuildID s.db bid).isEmpty = true := by
      simpa [List.isEmpty_iff] using hne
    have h3 : ((getBuildFilesByBuildID s.db bid).all fun f => f.state == "uploaded") = true := by
      rw [List.all_eq_true]
      intro f hf
      simp [hupl f hf]
    unfold checkAndUpdateBuildState
    simp only [hb]
    rw [if_neg h1, if_neg h2, if_pos h3]
    rw [getBuildByID_updateBuild,
      getBuildByID_eq_of_builds_eq (generateArchive_match_builds _ _ _) bid,
      getBuildByID_updateBuild, hb]
    simp
  · intro ar1 ar2
    unfold checkAndUpdateBuildState
    simp only [hb]
    by_cases h1 : (b.state != "started") = true
    · rw [if_pos h1, if_pos h1]
    · rw [if_neg h1, if_neg h1]
      by_cases h2 : (getBuildFilesByBuildID s.db bid).isEmpty = true
      · rw [if_pos h2, if_pos h2]
      · rw [if_neg h2, if_neg h2]
        by_cases h3 :
            ((getBuildFilesByBuildID s.db bid).all fun f => f.state == "uploaded") = true
        · rw [if_pos h3, if_pos h3]
          show (updateBuild _ _).builds = (updateBuild _ _).builds
          rw [updateBuild_builds, updateBuild_builds,
            generateArchive_match_builds, generateArchive_match_builds]
        · rw [if_neg h3, if_neg h3]

/-- C4 witness: on concrete stores, the completion evaluation leaves an
already-completed build and a zero-file build untouched, completes build 1
even when archive generation fails, and produces the same builds table for
a failed and a successful archive run. -/
theorem checkAndUpdateBuildState_spec_witness :
    checkAndUpdateBuildState completedScenario 1 (some 64) = completedScenario ∧
    checkAndUpdateBuildState emptyFilesScenario 1 (some 64) = emptyFilesScenario ∧
    getBuildByID (checkAndUpdateBuildState archiveScenario 1 none).db 1 =
      some { id := 1, uploadId := 20, userVersion := "1.0", parentBuildId := none
             state := "completed" } ∧
    (checkAndUpdateBuildState archiveScenario 1 none).db.builds =
      (checkAndUpdateBuildState archiveScenario 1 (some 64)).db.builds :=
  ⟨(checkAndUpdateBuildState_spec completedScenario 1 completedBuild rfl).1 (by decide) (some 64),
   (checkAndUpdateBuildState_spec emptyFilesScenario 1 raceBuild rfl).2.1 rfl (some 64),
   (checkAndUpdateBuildState_spec archiveScenario 1 raceBuild rfl).2.2.1 rfl
     (by decide) (by decide) none,
   (checkAndUpdateBuildState_spec archiveScenario 1 raceBuild rfl).2.2.2 none (some 64)⟩

/-- Finding a row in a prefix still finds it after rows are appended. -/
theorem find?_append_some {α : Type} (p : α → Bool) (l1 l2 : List α) (x : α)
    (h : l1.find? p = some x) : (l1 ++ l2).find? p = some x := by
  rw [List.find?_append, h]
  rfl

/-- `UpdateBuild` leaves the build_files table untouched. -/
theorem getBuildFileByID_updateBuild (db : Database) (b : Build) (k : Int) :
    getBuildFileByID (updateBuild db b) k = getBuildFileByID db k := rfl

/-- A BuildFile row whose id is below the fresh archive id survives archive
generation (and its swallowed failure) unchanged. -/
theorem getBuildFileByID_generateArchive (s1 : SysState) (b1 : Build) (ar : Option Int)
    (fid : Int) (x : BuildFile) (hx : getBuildFileByID s1.db fid = some x)
    (hne : (x.id == s1.db.nextBuildFileId) = false) :
    getBuildFileByID
      (match generateArchiveFile s1 b1 ar with
        | .ok sOk => sOk
        | .error _ => s1).db fid = some x := by
  cases ar with
  | none => exact hx
  | some sz =>
    show getBuildFileByID (updateBuildFile _ _) fid = some x
    rw [getBuildFileByID_updateBuildFile]
    have h1 : getBuildFileByID
        { s1.db with
          buildFiles := s1.db.buildFiles ++
            [{ id := s1.db.nextBuildFileId, buildId := b1.id, type := "archive"
               subType := "default", size := sz, state := "uploaded"
               storagePath := "builds/" ++ toString b1.id ++ "/files", uploadUrl := "" }]
          nextBuildFileId := s1.db.nextBuildFileId + 1 } fid = some x :=
      find?_append_some _ _ _ _ hx
    rw [h1]
    have hne' : ¬x.id = s1.db.nextBuildFileId := by
      simpa using hne
    simp [hne']

/-- A BuildFile row whose id is below the store's next BuildFile id
survives the completion evaluation unchanged. -/
theorem getBuildFileByID_checkAndUpdate (s : SysState) (bid : Int) (ar : Option Int)
    (fid : Int) (x : BuildFile) (hx : getBuildFileByID s.db fid = some x)
    (hne : (x.id == s.db.nextBuildFileId) = false) :
    getBuildFileByID (checkAndUpdateBuildState s bid ar).db fid = some x := by
  unfold checkAndUpdateBuildState
  cases hgb : getBuildByID s.db bid with
  | none =>
    simp only [hgb]
    exact hx
  | some build =>
    simp only [hgb]
    by_cases h1 : (build.state != "started") = true
    · rw [if_pos h1]
      exact hx
    · rw [if_neg h1]
      by_cases h2 : (getBuildFilesByBuildID s.db bid).isEmpty = true
      · rw [if_pos h2]
        exact hx
      · rw [if_neg h2]
        by_cases h3 :
            ((getBuildFilesByBuildID s.db bid).all fun f => f.state == "uploaded") = true
        · rw [if_pos h3]
          show getBuildFileByID (updateBuild _ _) fid = some x
          rw [getBuildFileByID_updateBuild]
          exact getBuildFileByID_generateArchive _ _ ar fid x hx hne
        · rw [if_neg h3]
          exact hx

/-- C3: CONFIRMED.  For a FinalizeBuildFile call on an existing BuildFile
of the given build: when no object exists at the file's storage path the
call fails with the client error "file not found in storage - upload may
have failed" and (the handler returning before any write) the row is
unchanged; when the object exists, size is set to the size reported by
the blob store and state to "uploaded", persisted together by one row
update; and the caller-declared size never influences the outcome. -/
theorem finalizeBuildFile_verifies_with_blob_store
    (s : SysState) (buildId fileId declaredSize : Int) (ar : Option Int) (bf : BuildFile)
    (hf : getBuildFileByID s.db fileId = some bf)
    (hbelong : bf.buildId = buildId) :
    (fileExists s.blob bf.storagePath = false →
      finalizeBuildFile s buildId fileId declaredSize ar =
        .error (.badRequest "file not found in storage - upload may have failed")) ∧
    (∀ sz, getFileSize s.blob bf.storagePath = some sz →
      (∀ f ∈ s.db.buildFiles, f.id < s.db.nextBuildFileId) →
      ∃ s2, finalizeBuildFile s buildId fileId declaredSize ar =
          .ok (s2, { id := bf.id, size := sz, state := "uploaded" }) ∧
        getBuildFileByID s2.db fileId =
          some { bf with size := sz, state := "uploaded" }) ∧
    (∀ d1 d2, finalizeBuildFile s buildId fileId d1 ar =
      finalizeBuildFile s buildId fileId d2 ar) := by
  have c1 : ¬((bf.buildId != buildId) = true) := by
    simp [bne, hbelong]
  refine ⟨?_, ?_, fun d1 d2 => rfl⟩
  · intro hmiss
    have c2 : (!(fileExists s.blob bf.storagePath)) = true := by
      rw [hmiss]
      rfl
    unfold finalizeBuildFile
    simp only [hf]
    rw [if_neg c1, if_pos c2]
  · intro sz hsz hfresh
    have hex : fileExists s.blob bf.storagePath = true := by
      have : fileExists s.blob bf.storagePath = (getFileSize s.blob bf.storagePath).isSome := rfl
      rw [this, hsz]
      rfl
    have c2 : ¬((!(fileExists s.blob bf.storagePath)) = true) := by
      rw [hex]
      simp
    unfold finalizeBuildFile
    simp only [hf]
    rw [if_neg c1, if_neg c2]
    simp only [hsz]
    refine ⟨_, rfl, ?_⟩
    have hx : getBuildFileByID
        (updateBuildFile s.db { bf with size := sz, state := "uploaded" }) fileId =
        some { bf with size := sz, state := "uploaded" } := by
      rw [getBuildFileByID_updateBuildFile, hf]
      simp
    have hne : (({ bf with size := sz, state := "uploaded" } : BuildFile).id ==
        s.db.nextBuildFileId) = false := by
      have hlt := hfresh bf (List.mem_of_find?_eq_some hf)
      have hne0 : bf.id ≠ s.db.nextBuildFileId := ne_of_lt hlt
      simpa using hne0
    exact getBuildFileByID_checkAndUpdate _ buildId ar fileId _ hx hne

/-- C3 witness: finalizing file 1 of build 1 fails with the client error
when the object is absent; with a 1024-byte object present it succeeds
with size 1024 (not the declared 999) and state "uploaded" persisted on
the row; and declared sizes 0 and 999 give identical outcomes. -/
theorem finalizeBuildFile_verifies_witness :
    finalizeBuildFile missScenario 1 1 999 (some 64) =
      .error (.badRequest "file not found in storage - upload may have failed") ∧
    (∃ s2, finalizeBuildFile hitScenario 1 1 999 (some 64) =
        .ok (s2, { id := 1, size := 1024, state := "uploaded" }) ∧
      getBuildFileByID s2.db 1 =
        some { pendingFile with size := 1024, state := "uploaded" }) ∧
    finalizeBuildFile hitScenario 1 1 0 (some 64) =
      finalizeBuildFile hitScenario 1 1 999 (some 64) :=
  ⟨(finalizeBuildFile_verifies_with_blob_store missScenario 1 1 999 (some 64)
      pendingFile rfl rfl).1 rfl,
   (finalizeBuildFile_verifies_with_blob_store hitScenario 1 1 999 (some 64)
      pendingFile rfl rfl).2.1 1024 rfl (by decide),
   (finalizeBuildFile_verifies_with_blob_store hitScenario 1 1 0 (some 64)
      pendingFile rfl rfl).2.2 0 999⟩

/-- C7: CONFIRMED.  For every namespace-addressed operation (ListChannels,
GetChannel, CreateBuild) with a well-formed target, a non-admin acting
user whose username differs from the namespace gets the access-denied
outcome for EVERY store state — before and independently of whether the
namespace owner, game or channel exists — while an administrator never
receives the access-denied outcome for any namespace or store state. -/
theorem authorization_before_existence
    (db : Database) (user : User) (target ns gn channelName chReq uv : String)
    (hp : parseTarget target = some (ns, gn)) :
    (user.IsAdmin = false → user.username ≠ ns →
      listChannels db user target = .error (.forbidden "access denied") ∧
      getChannelHandler db user target channelName = .error (.forbidden "access denied") ∧
      createBuild db user { target := target, channel := chReq, userVersion := uv } =
        .error (.forbidden "access denied")) ∧
    (user.IsAdmin = true →
      (∀ msg, listChannels db user target ≠ .error (.forbidden msg)) ∧
      (∀ msg, getChannelHandler db user target channelName ≠ .error (.forbidden msg)) ∧
      (∀ msg, createBuild db user { target := target, channel := chReq, userVersion := uv } ≠
        .error (.forbidden msg))) := by
  have htarget : (target == "") = false := by
    by_cases h : target = ""
    · subst h
      have : parseTarget "" = none := rfl
      rw [this] at hp
      exact absurd hp (by simp)
    · simpa using h
  constructor
  · intro hadmin hname
    have hcan : user.CanAccessNamespace ns = false := by
      unfold User.CanAccessNamespace
      rw [hadmin]
      simpa using hname
    have hcond : (!user.CanAccessNamespace ns) = true := by
      rw [hcan]
      rfl
    refine ⟨?_, ?_, ?_⟩
    · unfold listChannels
      rw [if_neg (by simp [htarget])]
      simp only [hp]
      rw [if_pos hcond]
    · unfold getChannelHandler
      rw [if_neg (by simp [htarget])]
      simp only [hp]
      rw [if_pos hcond]
    · unfold createBuild
      rw [if_neg (by simp [htarget])]
      simp only [hp]
      rw [if_pos hcond]
  · intro hadmin
    have hcan : user.CanAccessNamespace ns = true := by
      unfold User.CanAccessNamespace
      rw [hadmin]
      rfl
    have hcond : ¬(!user.CanAccessNamespace ns) = true := by
      rw [hcan]
      simp
    refine ⟨?_, ?_, ?_⟩
    · intro msg
      unfold listChannels
      rw [if_neg (by simp [htarget])]
      simp only [hp]
      rw [if_neg hcond]
      cases hg : getGameByUserAndTitle db user.id gn <;> simp [hg]
    · intro msg
      unfold getChannelHandler
      rw [if_neg (by simp [htarget])]
      simp only [hp]
      rw [if_neg hcond]
      by_cases hu : user.username = ns
      · rw [if_pos (by simp [hu])]
        cases hg : getGameByUserAndTitle db user.id gn with
        | none => simp [hg]
        | some game =>
          cases hc : findChannelAcrossUploads db (getUploadsByGameID db game.id) channelName <;>
            simp [hg, hc]
      · rw [if_neg (by simp [hu])]
        cases ht : getUserByUsername db ns with
        | none => simp [ht]
        | some tu =>
          cases hg : getGameByUserAndTitle db tu.id gn with
          | none => simp [ht, hg]
          | some game =>
            cases hc :
                findChannelAcrossUploads db (getUploadsByGameID db game.id) channelName <;>
              simp [ht, hg, hc]
    · intro msg
      unfold createBuild
      rw [if_neg (by simp [htarget])]
      simp only [hp]
      rw [if_neg hcond]
      cases ht : getUserByUsername db ns <;> simp [ht]

/-- C7 witness: on the concrete store, bob (non-admin) is denied all three
namespace-addressed operations against "alice/demo", and the
administrator is denied none of them. -/
theorem authorization_before_existence_witness :
    (listChannels dbAdminScenario bobUser "alice/demo" =
        .error (.forbidden "access denied") ∧
      getChannelHandler dbAdminScenario bobUser "alice/demo" "main" =
        .error (.forbidden "access denied") ∧
      createBuild dbAdminScenario bobUser
          { target := "alice/demo", channel := "main", userVersion := "" } =
        .error (.forbidden "access denied")) ∧
    (listChannels dbAdminScenario adminUser "alice/demo" ≠
        .error (.forbidden "access denied") ∧
      getChannelHandler dbAdminScenario adminUser "alice/demo" "main" ≠
        .error (.forbidden "access denied") ∧
      createBuild dbAdminScenario adminUser
          { target := "alice/demo", channel := "main", userVersion := "" } ≠
        .error (.forbidden "access denied")) :=
  ⟨(authorization_before_existence dbAdminScenario bobUser "alice/demo" "alice" "demo"
      "main" "main" "" rfl).1 rfl (by decide),
   ⟨((authorization_before_existence dbAdminScenario adminUser "alice/demo" "alice" "demo"
        "main" "main" "" rfl).2 rfl).1 "access denied",
    ((authorization_before_existence dbAdminScenario adminUser "alice/demo" "alice" "demo"
        "main" "main" "" rfl).2 rfl).2.1 "access denied",
    ((authorization_before_existence dbAdminScenario adminUser "alice/demo" "alice" "demo"
        "main" "main" "" rfl).2 rfl).2.2 "access denied"⟩⟩

/-- Row replacement by key keeps a found entry found: the replacing value
satisfies the predicate and carries the found row's key, so the lookup
returns the replacement. -/
theorem find?_map_update_of_found {α : Type} (p : α → Bool) (key : α → Int) (c nc : α)
    (l : List α) (h : l.find? p = some c) (hp : p nc = true) (hid : key nc = key c) :
    (l.map (fun x => if key x == key nc then nc else x)).find? p = some nc := by
  induction l with
  | nil => simp at h
  | cons a l ih =>
    by_cases ha : p a = true
    · rw [List.find?_cons_of_pos _ ha] at h
      have hac : a = c := by injection h
      subst hac
      rw [List.map_cons]
      have hkey : (key a == key nc) = true := by
        rw [hid]
        exact beq_self_eq_true _
      rw [if_pos hkey]
      exact List.find?_cons_of_pos _ hp
    · rw [List.find?_cons_of_neg _ ha] at h
      rw [List.map_cons]
      by_cases hk : (key a == key nc) = true
      · rw [if_pos hk]
        exact List.find?_cons_of_pos _ hp
      · rw [if_neg hk]
        rw [List.find?_cons_of_neg _ ha]
        exact ih h

/-- Looking a channel up after `UpdateChannel` with a row that keeps the
looked-up (name, upload) and the id of the found row yields the update. -/
theorem getChannelByName_updateChannel (db : Database) (name : String) (uid : Int)
    (c nc : Channel) (h : getChannelByName db name uid = some c)
    (hp : (nc.name == name && nc.uploadId == uid) = true) (hid : nc.id = c.id) :
    getChannelByName (updateChannel db nc) name uid = some nc :=
  find?_map_update_of_found _ (fun x : Channel => x.id) c nc db.channels h hp hid

/-- When nothing in a prefix matches, lookup continues in the suffix. -/
theorem find?_append_of_none {α : Type} (p : α → Bool) (l1 l2 : List α)
    (h : l1.find? p = none) : (l1 ++ l2).find? p = l2.find? p := by
  rw [List.find?_append, h]
  rfl

/-- After the resolved CreateBuild pipeline, the channel named in the
request, on the resolved upload, points at the build just created. -/
theorem createBuildResolved_channel (db : Database) (owner : User) (gn : String)
    (req : CreateBuildRequest) :
    ∃ ch, getChannelByName (createBuildResolved db owner gn req).fst req.channel
        (createBuildResolved db owner gn req).snd.uploadId = some ch ∧
      ch.currentBuildId = some (createBuildResolved db owner gn req).snd.id := by
  simp only [createBuildResolved]
  split
  next c heq =>
    exact ⟨_, getChannelByName_updateChannel _ _ _ c _ heq
      (by simpa using List.find?_some heq) rfl, rfl⟩
  next heq =>
    exact ⟨_, (find?_append_of_none _ _ _ heq).trans
      (List.find?_cons_of_pos _ (by simp)), rfl⟩

/-- C5: CONFIRMED.  After every successful CreateBuild, the channel named
in the request, on the resolved upload (the upload id of the response),
has its current-build pointer equal to the id of the build just created:
an existing channel row is updated to the new build, a missing one is
created pointing at it — so the pointer always equals the most recently
created build for that channel. -/
theorem createBuild_updates_channel_pointer
    (db : Database) (user : User) (req : CreateBuildRequest) (db1 : Database)
    (resp : BuildResponse) (h : createBuild db user req = .ok (db1, resp)) :
    ∃ ch, getChannelByName db1 req.channel resp.uploadId = some ch ∧
      ch.currentBuildId = some resp.id := by
  unfold createBuild at h
  split at h
  · exact absurd h (by simp)
  · split at h
    · exact absurd h (by simp)
    · split at h
      · exact absurd h (by simp)
      · split at h
        · exact absurd h (by simp)
        next owner howner =>
          rename_i username gamename heqparse hcan xowner
          simp only [Except.ok.injEq] at h
          have hfst : (createBuildResolved db owner gamename req).fst = db1 := by
            rw [h]
          have hsnd : (createBuildResolved db owner gamename req).snd = resp := by
            rw [h]
          rw [← hfst, ← hsnd]
          exact createBuildResolved_channel db owner gamename req

/-- C5 witness: alice pushes to channel "main" of "alice/demo" on the
concrete store; afterwards the channel points at the returned build id. -/
theorem createBuild_updates_channel_pointer_witness :
    ∃ db1 resp,
      createBuild dbAdminScenario aliceUser
          { target := "alice/demo", channel := "main", userVersion := "1.0" } =
        .ok (db1, resp) ∧
      ∃ ch, getChannelByName db1 "main" resp.uploadId = some ch ∧
        ch.currentBuildId = some resp.id :=
  ⟨_, _, rfl,
   createBuild_updates_channel_pointer dbAdminScenario aliceUser
     { target := "alice/demo", channel := "main", userVersion := "1.0" } _ _ rfl⟩

/-- Builds table after the resolved CreateBuild pipeline: one appended row. -/
theorem resolveGame_fst_builds (db : Database) (o : Int) (t : String) :
    (resolveGame db o t).fst.builds = db.builds := by
  unfold resolveGame
  split <;> rfl

/-- Upload resolution never touches the builds table. -/
theorem resolveUpload_fst_builds (db : Database) (g : Game) (gn cn : String) :
    (resolveUpload db g gn cn).fst.builds = db.builds := by
  unfold resolveUpload
  split <;> rfl

/-- The resolved CreateBuild pipeline appends exactly one build row: the
request's new build, in state "started". -/
theorem createBuildResolved_builds (db : Database) (owner : User) (gn : String)
    (req : CreateBuildRequest) :
    (createBuildResolved db owner gn req).fst.builds =
      db.builds ++ [newBuildOf db owner gn req] := by
  simp only [createBuildResolved]
  split
  next c heq =>
    show (_ : Database).builds ++ _ = _
    rw [resolveUpload_fst_builds, resolveGame_fst_builds]
    rfl
  next heq =>
    show (_ : Database).builds ++ _ = _
    rw [resolveUpload_fst_builds, resolveGame_fst_builds]
    rfl

/-- A successful CreateBuild appends exactly one build row (in state
"started") and touches no existing build row. -/
theorem createBuild_ok_builds (db : Database) (user : User) (req : CreateBuildRequest)
    (dbr : Database) (resp : BuildResponse) (h : createBuild db user req = .ok (dbr, resp)) :
    ∃ nb, dbr.builds = db.builds ++ [nb] ∧ nb.state = "started" := by
  unfold createBuild at h
  split at h
  · exact absurd h (by simp)
  · split at h
    · exact absurd h (by simp)
    · split at h
      · exact absurd h (by simp)
      · split at h
        · exact absurd h (by simp)
        next owner howner =>
          rename_i username gamename heqparse hcan xowner
          simp only [Except.ok.injEq] at h
          have hfst : (createBuildResolved db owner gamename req).fst = dbr := by
            rw [h]
          refine ⟨newBuildOf db owner gamename req, ?_, rfl⟩
          rw [← hfst]
          exact createBuildResolved_builds db owner gamename req

/-- A successful CreateBuildFile never touches the builds table. -/
theorem createBuildFile_ok_builds (db : Database) (buildId : Int)
    (req : CreateBuildFileRequest) (fileUuid : String) (dbr : Database)
    (resp : BuildFileResponse) (h : createBuildFile db buildId req fileUuid = .ok (dbr, resp)) :
    dbr.builds = db.builds := by
  unfold createBuildFile at h
  split at h
  · exact absurd h (by simp)
  · split at h
    · exact absurd h (by simp)
    · simp only [Except.ok.injEq, Prod.mk.injEq] at h
      rw [← h.1]

/-- Every build state has rank at most 2. -/
theorem stateRank_le_two (st : String) : stateRank st ≤ 2 := by
  unfold stateRank
  split <;> omega

/-- The completion evaluation never lowers the rank of any build's state:
untouched builds keep their row, and the only writes drive a build read
as "started" (rank 0) to "processing"/"completed". -/
theorem checkAndUpdate_build_mono (s : SysState) (bid0 : Int) (ar : Option Int)
    (bid : Int) (b : Build) (hb : getBuildByID s.db bid = some b) :
    ∃ b2, getBuildByID (checkAndUpdateBuildState s bid0 ar).db bid = some b2 ∧
      stateRank b.state ≤ stateRank b2.state := by
  unfold checkAndUpdateBuildState
  cases hgb : getBuildByID s.db bid0 with
  | none =>
    simp only [hgb]
    exact ⟨b, hb, le_refl _⟩
  | some build =>
    simp only [hgb]
    by_cases h1 : (build.state != "started") = true
    · rw [if_pos h1]
      exact ⟨b, hb, le_refl _⟩
    · rw [if_neg h1]
      by_cases h2 : (getBuildFilesByBuildID s.db bid0).isEmpty = true
      · rw [if_pos h2]
        exact ⟨b, hb, le_refl _⟩
      · rw [if_neg h2]
        by_cases h3 :
            ((getBuildFilesByBuildID s.db bid0).all fun f => f.state == "uploaded") = true
        · rw [if_pos h3]
          have e3 : getBuildByID
              (updateBuild
                (match generateArchiveFile
                    { s with db := updateBuild s.db { build with state := "processing" } }
                    { build with state := "processing" } ar with
                  | .ok sOk => sOk
                  | .error _ =>
                    { s with db := updateBuild s.db { build with state := "processing" } }).db
                { build with state := "completed" }) bid =
              ((getBuildByID s.db bid).map
                  (fun x => if x.id == build.id then { build with state := "processing" } else x)).map
                (fun x => if x.id == build.id then { build with state := "completed" } else x) := by
            rw [getBuildByID_updateBuild,
              getBuildByID_eq_of_builds_eq (generateArchive_match_builds _ _ _) bid,
              getBuildByID_updateBuild]
          rw [hb] at e3
          by_cases hid : (b.id == build.id) = true
          · have hbe : b.id = build.id := by
              simpa using hid
            refine ⟨{ build with state := "completed" }, ?_, stateRank_le_two _⟩
            refine e3.trans ?_
            simp [hbe]
          · have hbe : ¬b.id = build.id := by
              simpa using hid
            refine ⟨b, ?_, le_refl _⟩
            refine e3.trans ?_
            simp [hbe]
        · rw [if_neg h3]
          exact ⟨b, hb, le_refl _⟩

/-- `UpdateBuildFile` leaves the builds table untouched. -/
theorem getBuildByID_updateBuildFile (db : Database) (f : BuildFile) (k : Int) :
    getBuildByID (updateBuildFile db f) k = getBuildByID db k := rfl

/-- One engine operation never lowers the rank of any build's state. -/
theorem runOp_build_mono (s : SysState) (op : Op) (bid : Int) (b : Build)
    (hb : getBuildByID s.db bid = some b) :
    ∃ b2, getBuildByID (runOp s op).db bid = some b2 ∧
      stateRank b.state ≤ stateRank b2.state := by
  cases op with
  | createBuild user req =>
    unfold runOp
    cases hr : createBuild s.db user req with
    | error e =>
      simp only [hr]
      exact ⟨b, hb, le_refl _⟩
    | ok p =>
      simp only [hr]
      obtain ⟨nb, hbuilds, hstate⟩ :=
        createBuild_ok_builds s.db user req p.fst p.snd (by rw [hr])
      refine ⟨b, ?_, le_refl _⟩
      show List.find? _ p.fst.builds = some b
      rw [hbuilds]
      exact find?_append_some _ _ _ _ hb
  | createBuildFile buildId req fileUuid =>
    unfold runOp
    cases hr : createBuildFile s.db buildId req fileUuid with
    | error e =>
      simp only [hr]
      exact ⟨b, hb, le_refl _⟩
    | ok p =>
      simp only [hr]
      have hbuilds := createBuildFile_ok_builds s.db buildId req fileUuid p.fst p.snd (by rw [hr])
      refine ⟨b, ?_, le_refl _⟩
      show List.find? _ p.fst.builds = some b
      rw [hbuilds]
      exact hb
  | finalizeBuildFile buildId fileId d ar =>
    unfold runOp
    cases hr : finalizeBuildFile s buildId fileId d ar with
    | error e =>
      simp only [hr]
      exact ⟨b, hb, le_refl _⟩
    | ok p =>
      simp only [hr]
      unfold finalizeBuildFile at hr
      split at hr
      · exact absurd hr (by simp)
      next bf hbf =>
        split at hr
        · exact absurd hr (by simp)
        · split at hr
          · exact absurd hr (by simp)
          · split at hr
            · exact absurd hr (by simp)
            next sz hsz =>
              simp only [Except.ok.injEq] at hr
              have hfst : p.fst =
                  checkAndUpdateBuildState
                    { s with db := updateBuildFile s.db { bf with size := sz, state := "uploaded" } }
                    buildId ar := by
                rw [← hr]
              rw [hfst]
              exact checkAndUpdate_build_mono _ buildId ar bid b hb
  | blobPut path size =>
    exact ⟨b, hb, le_refl _⟩

/-- A sequence of engine operations never lowers the rank of any build's
state. -/
theorem runOps_build_mono (s : SysState) (ops : List Op) (bid : Int) (b : Build)
    (hb : getBuildByID s.db bid = some b) :
    ∃ b2, getBuildByID (runOps s ops).db bid = some b2 ∧
      stateRank b.state ≤ stateRank b2.state := by
  induction ops generalizing s b with
  | nil => exact ⟨b, hb, le_refl _⟩
  | cons op ops ih =>
    obtain ⟨b1, h1, hle1⟩ := runOp_build_mono s op bid b hb
    obtain ⟨b2, h2, hle2⟩ := ih (runOp s op) b1 h1
    exact ⟨b2, h2, le_trans hle1 hle2⟩

/-- C8: CONFIRMED.  Along every sequence of engine operations
(CreateBuild, RegisterBuildFile, FinalizeBuildFile with its completion
evaluation, and external blob-store puts), every build's state rank along
started → processing → completed is monotone: the build row survives
every operation with a rank at least as high, and once a read observes
"processing" or "completed" no later read of that build observes
"started". -/
theorem build_state_monotonic (s : SysState) (ops : List Op) (bid : Int) (b : Build)
    (hb : getBuildByID s.db bid = some b) :
    (∃ b2, getBuildByID (runOps s ops).db bid = some b2 ∧
      stateRank b.state ≤ stateRank b2.state) ∧
    (b.state = "processing" ∨ b.state = "completed" →
      ∀ b2, getBuildByID (runOps s ops).db bid = some b2 → b2.state ≠ "started") := by
  refine ⟨runOps_build_mono s ops bid b hb, ?_⟩
  intro hps b2 h2
  obtain ⟨b2x, h2x, hle⟩ := runOps_build_mono s ops bid b hb
  have hbb : b2x = b2 := by
    rw [h2x] at h2
    exact Option.some.inj h2
  subst hbb
  intro hstart
  rw [hstart] at hle
  have hzero : stateRank "started" = 0 := rfl
  rw [hzero] at hle
  cases hps with
  | inl hp =>
    rw [hp] at hle
    exact absurd hle (by simp [stateRank])
  | inr hc =>
    rw [hc] at hle
    exact absurd hle (by simp [stateRank])

/-- C8 witness: finalizing the landed file of build 1 drives its rank
forward (started → completed), and on a store whose build 1 is already
"completed", the build is never observed as "started" after a further
finalize. -/
theorem build_state_monotonic_witness :
    (∃ b2, getBuildByID
        (runOps hitScenario [Op.finalizeBuildFile 1 1 1024 (some 64)]).db 1 = some b2 ∧
      stateRank raceBuild.state ≤ stateRank b2.state) ∧
    ({ id := 1, uploadId := 20, userVersion := "1.0", parentBuildId := none
       state := "completed" } : Build).state ≠ "started" :=
  ⟨(build_state_monotonic hitScenario [Op.finalizeBuildFile 1 1 1024 (some 64)] 1
      raceBuild rfl).1,
   (build_state_monotonic completedScenario [Op.finalizeBuildFile 1 1 100 (some 64)] 1
      completedBuild rfl).2 (Or.inr rfl) _ rfl⟩

/-- Game resolution leaves uploads untouched. -/
theorem resolveGame_fst_uploads (db : Database) (o : Int) (t : String) :
    (resolveGame db o t).fst.uploads = db.uploads := by
  unfold resolveGame
  split <;> rfl

/-- Game resolution leaves channels untouched. -/
theorem resolveGame_fst_channels (db : Database) (o : Int) (t : String) :
    (resolveGame db o t).fst.channels = db.channels := by
  unfold resolveGame
  split <;> rfl

/-- Game resolution leaves users untouched. -/
theorem resolveGame_fst_users (db : Database) (o : Int) (t : String) :
    (resolveGame db o t).fst.users = db.users := by
  unfold resolveGame
  split <;> rfl

/-- Game resolution leaves the upload counter untouched. -/
theorem resolveGame_fst_nextUploadId (db : Database) (o : Int) (t : String) :
    (resolveGame db o t).fst.nextUploadId = db.nextUploadId := by
  unfold resolveGame
  split <;> rfl

/-- Upload resolution leaves channels untouched. -/
theorem resolveUpload_fst_channels (db : Database) (g : Game) (gn cn : String) :
    (resolveUpload db g gn cn).fst.channels = db.channels := by
  unfold resolveUpload
  split <;> rfl

/-- Upload resolution leaves users untouched. -/
theorem resolveUpload_fst_users (db : Database) (g : Game) (gn cn : String) :
    (resolveUpload db g gn cn).fst.users = db.users := by
  unfold resolveUpload
  split <;> rfl

/-- Upload resolution leaves games untouched. -/
theorem resolveUpload_fst_games (db : Database) (g : Game) (gn cn : String) :
    (resolveUpload db g gn cn).fst.games = db.games := by
  unfold resolveUpload
  split <;> rfl

/-- Channel lookup only reads the channels table. -/
theorem getChannelByName_eq_of_channels_eq {db1 db2 : Database}
    (h : db1.channels = db2.channels) (name : String) (uid : Int) :
    getChannelByName db1 name uid = getChannelByName db2 name uid := by
  unfold getChannelByName
  rw [h]

/-- No channel of the given name exists, so every lookup of it fails. -/
theorem getChannelByName_of_no_name (db : Database) (cn : String) (uid : Int)
    (hName : ∀ c ∈ db.channels, c.name ≠ cn) :
    getChannelByName db cn uid = none := by
  unfold getChannelByName
  rw [List.find?_eq_none]
  intro c hc
  simp [hName c hc]

/-- The whole CreateBuild pipeline leaves users untouched. -/
theorem createBuildResolved_users (db : Database) (owner : User) (gn : String)
    (req : CreateBuildRequest) :
    (createBuildResolved db owner gn req).fst.users = db.users := by
  simp only [createBuildResolved]
  split
  next c heq =>
    show (_ : Database).users = _
    rw [resolveUpload_fst_users, resolveGame_fst_users]
    rfl
  next heq =>
    show (_ : Database).users = _
    rw [resolveUpload_fst_users, resolveGame_fst_users]

/-- The CreateBuild pipeline changes games only through game resolution. -/
theorem createBuildResolved_games (db : Database) (owner : User) (gn : String)
    (req : CreateBuildRequest) :
    (createBuildResolved db owner gn req).fst.games =
      (resolveGame db owner.id gn).fst.games := by
  simp only [createBuildResolved]
  split
  next c heq =>
    show (_ : Database).games = _
    rw [resolveUpload_fst_games]
    rfl
  next heq =>
    show (_ : Database).games = _
    rw [resolveUpload_fst_games]

/-- The CreateBuild pipeline changes uploads only through upload
resolution. -/
theorem createBuildResolved_uploads (db : Database) (owner : User) (gn : String)
    (req : CreateBuildRequest) :
    (createBuildResolved db owner gn req).fst.uploads =
      (resolvedUploadOf db owner gn req).fst.uploads := by
  simp only [createBuildResolved, resolvedUploadOf]
  split
  next c heq => rfl
  next heq => rfl

/-- When no channel of the name exists anywhere, upload resolution takes
the create branch and returns the fresh upload. -/
theorem resolveUpload_create_of_no_channel (db : Database) (g : Game) (gn cn : String)
    (hnone : ∀ uid, getChannelByName db cn uid = none) :
    resolveUpload db g gn cn =
      ({ db with
          uploads := db.uploads ++
            [{ id := db.nextUploadId, gameId := g.id, filename := gn ++ ".zip"
               displayName := gn, size := 0, storage := "hosted", type := "default"
               platforms := "[\"windows\",\"linux\",\"osx\"]" }]
          nextUploadId := db.nextUploadId + 1 },
       { id := db.nextUploadId, gameId := g.id, filename := gn ++ ".zip"
         displayName := gn, size := 0, storage := "hosted", type := "default"
         platforms := "[\"windows\",\"linux\",\"osx\"]" }) := by
  unfold resolveUpload
  have hfind : (getUploadsByGameID db g.id).find?
      (fun u => (getChannelByName db cn u.id).isSome) = none := by
    rw [List.find?_eq_none]
    intro u hu
    simp [hnone u.id]
  rw [hfind]

/-- When the channel scan finds an upload, upload resolution returns it
and leaves the store untouched. -/
theorem resolveUpload_found (db : Database) (g : Game) (gn cn : String) (u : Upload)
    (hfind : (getUploadsByGameID db g.id).find?
      (fun u2 => (getChannelByName db cn u2.id).isSome) = some u) :
    resolveUpload db g gn cn = (db, u) := by
  unfold resolveUpload
  rw [hfind]

/-- Game resolution is stable: a second resolution against any store whose
games table equals the first resolution's result finds the same game and
creates nothing. -/
theorem resolveGame_stable (db db2 : Database) (o : Int) (t : String)
    (hgames : db2.games = (resolveGame db o t).fst.games) :
    resolveGame db2 o t = (db2, (resolveGame db o t).snd) := by
  cases hf : (getGamesByUserID db o).find? (fun g => g.title == t) with
  | some g =>
    have hinner : resolveGame db o t = (db, g) := by
      unfold resolveGame
      rw [hf]
    rw [hinner] at hgames ⊢
    unfold resolveGame
    have hfind2 : (getGamesByUserID db2 o).find? (fun g2 => g2.title == t) = some g := by
      unfold getGamesByUserID
      rw [hgames]
      exact hf
    rw [hfind2]
  | none =>
    have hinner : resolveGame db o t =
        ({ db with
            games := db.games ++
              [{ id := db.nextGameId, userId := o, title := t, shortText := ""
                 type := "default", classification := "game", url := "" }]
            nextGameId := db.nextGameId + 1 },
         { id := db.nextGameId, userId := o, title := t, shortText := ""
           type := "default", classification := "game", url := "" }) := by
      unfold resolveGame
      rw [hf]
    rw [hinner] at hgames ⊢
    unfold resolveGame
    have hfind2 : (getGamesByUserID db2 o).find? (fun g2 => g2.title == t) =
        some { id := db.nextGameId, userId := o, title := t, shortText := ""
               type := "default", classification := "game", url := "" } := by
      unfold getGamesByUserID
      unfold getGamesByUserID at hf
      rw [hgames]
      show ((db.games ++ _).filter _).find? _ = _
      rw [List.filter_append]
      rw [find?_append_of_none _ _ _ hf]
      simp
    rw [hfind2]

/-- The created build's parent is the current build of the channel (if
any) on the resolved upload. -/
theorem createBuildResolved_parent (db : Database) (owner : User) (gn : String)
    (req : CreateBuildRequest) :
    (createBuildResolved db owner gn req).snd.parentBuild =
      (getChannelByName (resolvedUploadOf db owner gn req).fst req.channel
        (resolvedUploadOf db owner gn req).snd.id).bind (fun c => c.currentBuildId) := rfl

/-- The created build's id reads the resolved store's build counter. -/
theorem createBuildResolved_snd_id (db : Database) (owner : User) (gn : String)
    (req : CreateBuildRequest) :
    (createBuildResolved db owner gn req).snd.id =
      (resolvedUploadOf db owner gn req).fst.nextBuildId := rfl

/-- First push on a channel name absent from the store: upload resolution
creates a fresh upload for the resolved game. -/
theorem resolvedUploadOf_first_push (db : Database) (owner : User) (gn : String)
    (req : CreateBuildRequest) (hName : ∀ c ∈ db.channels, c.name ≠ req.channel) :
    resolvedUploadOf db owner gn req =
      ({ (resolveGame db owner.id gn).fst with
          uploads := (resolveGame db owner.id gn).fst.uploads ++
            [{ id := (resolveGame db owner.id gn).fst.nextUploadId
               gameId := (resolveGame db owner.id gn).snd.id, filename := gn ++ ".zip"
               displayName := gn, size := 0, storage := "hosted", type := "default"
               platforms := "[\"windows\",\"linux\",\"osx\"]" }]
          nextUploadId := (resolveGame db owner.id gn).fst.nextUploadId + 1 },
       { id := (resolveGame db owner.id gn).fst.nextUploadId
         gameId := (resolveGame db owner.id gn).snd.id, filename := gn ++ ".zip"
         displayName := gn, size := 0, storage := "hosted", type := "default"
         platforms := "[\"windows\",\"linux\",\"osx\"]" }) := by
  unfold resolvedUploadOf
  apply resolveUpload_create_of_no_channel
  intro uid
  rw [getChannelByName_eq_of_channels_eq (resolveGame_fst_channels db owner.id gn)]
  exact getChannelByName_of_no_name db req.channel uid hName

/-- First push on an absent channel name: the fresh upload's id is the
store's upload counter. -/
theorem resolvedUploadOf_first_push_id (db : Database) (owner : User) (gn : String)
    (req : CreateBuildRequest) (hName : ∀ c ∈ db.channels, c.name ≠ req.channel) :
    (resolvedUploadOf db owner gn req).snd.id = db.nextUploadId := by
  rw [resolvedUploadOf_first_push db owner gn req hName]
  show (resolveGame db owner.id gn).fst.nextUploadId = _
  rw [resolveGame_fst_nextUploadId]

/-- First push on an absent channel name: the channel upsert appends the
new channel row pointing at the new build. -/
theorem createBuildResolved_channels_first (db : Database) (owner : User) (gn : String)
    (req : CreateBuildRequest) (hName : ∀ c ∈ db.channels, c.name ≠ req.channel) :
    (createBuildResolved db owner gn req).fst.channels =
      db.channels ++
        [{ id := (resolvedUploadOf db owner gn req).fst.nextChannelId
           name := req.channel
           uploadId := (resolvedUploadOf db owner gn req).snd.id
           currentBuildId := some (resolvedUploadOf db owner gn req).fst.nextBuildId }] := by
  have hch : (resolvedUploadOf db owner gn req).fst.channels = db.channels := by
    unfold resolvedUploadOf
    rw [resolveUpload_fst_channels, resolveGame_fst_channels]
  have hnone : getChannelByName (resolvedUploadOf db owner gn req).fst req.channel
      (resolvedUploadOf db owner gn req).snd.id = none := by
    rw [getChannelByName_eq_of_channels_eq hch]
    exact getChannelByName_of_no_name db req.channel _ hName
  simp only [resolvedUploadOf] at hnone
  simp only [createBuildResolved, resolvedUploadOf, hnone]
  show (_ : Database).channels ++ _ = _
  rw [resolveUpload_fst_channels, resolveGame_fst_channels]

/-- First push on an absent channel name: the uploads table gains exactly
the fresh upload. -/
theorem createBuildResolved_uploads_first (db : Database) (owner : User) (gn : String)
    (req : CreateBuildRequest) (hName : ∀ c ∈ db.channels, c.name ≠ req.channel) :
    (createBuildResolved db owner gn req).fst.uploads =
      db.uploads ++ [(resolvedUploadOf db owner gn req).snd] := by
  rw [createBuildResolved_uploads, resolvedUploadOf_first_push db owner gn req hName,
    resolveGame_fst_uploads]

/-- After the first push, looking the channel name up under any upload id
other than the fresh upload's still fails. -/
theorem getChannelByName_after_first_other (db : Database) (owner : User) (gn : String)
    (req : CreateBuildRequest) (hName : ∀ c ∈ db.channels, c.name ≠ req.channel)
    (uid : Int) (hne : ¬uid = (resolvedUploadOf db owner gn req).snd.id) :
    getChannelByName (createBuildResolved db owner gn req).fst req.channel uid = none := by
  unfold getChannelByName
  rw [createBuildResolved_channels_first db owner gn req hName]
  have hOld : db.channels.find?
      (fun c => c.name == req.channel && c.uploadId == uid) = none := by
    rw [List.find?_eq_none]
    intro c hc
    simp [hName c hc]
  rw [find?_append_of_none _ _ _ hOld]
  rw [List.find?_cons_of_neg]
  · rfl
  · simp
    intro hx
    exact hne (by omega)

/-- After the first push, looking the channel name up under the fresh
upload's id finds the appended channel row. -/
theorem getChannelByName_after_first_self (db : Database) (owner : User) (gn : String)
    (req : CreateBuildRequest) (hName : ∀ c ∈ db.channels, c.name ≠ req.channel) :
    getChannelByName (createBuildResolved db owner gn req).fst req.channel
      (resolvedUploadOf db owner gn req).snd.id =
      some { id := (resolvedUploadOf db owner gn req).fst.nextChannelId
             name := req.channel
             uploadId := (resolvedUploadOf db owner gn req).snd.id
             currentBuildId := some (resolvedUploadOf db owner gn req).fst.nextBuildId } := by
  unfold getChannelByName
  rw [createBuildResolved_channels_first db owner gn req hName]
  have hOld : db.channels.find?
      (fun c => c.name == req.channel &&
        c.uploadId == (resolvedUploadOf db owner gn req).snd.id) = none := by
    rw [List.find?_eq_none]
    intro c hc
    simp [hName c hc]
  rw [find?_append_of_none _ _ _ hOld]
  exact List.find?_cons_of_pos _ (by simp)

/-- Second push with the same request: game resolution finds the same
game, and the upload scan finds exactly the upload created by the first
push (older uploads cannot carry the channel, and their ids differ from
the fresh upload's id). -/
theorem resolvedUploadOf_second_push (db : Database) (owner : User) (gn : String)
    (req : CreateBuildRequest)
    (hName : ∀ c ∈ db.channels, c.name ≠ req.channel)
    (hUp : ∀ u ∈ db.uploads, u.id < db.nextUploadId) :
    resolvedUploadOf (createBuildResolved db owner gn req).fst owner gn req =
      ((createBuildResolved db owner gn req).fst, (resolvedUploadOf db owner gn req).snd) := by
  have hg := resolveGame_stable db (createBuildResolved db owner gn req).fst owner.id gn
    (createBuildResolved_games db owner gn req)
  have hfreshid := resolvedUploadOf_first_push_id db owner gn req hName
  have hfind : (getUploadsByGameID (createBuildResolved db owner gn req).fst
      (resolveGame db owner.id gn).snd.id).find?
      (fun u2 => (getChannelByName (createBuildResolved db owner gn req).fst
        req.channel u2.id).isSome) = some (resolvedUploadOf db owner gn req).snd := by
    unfold getUploadsByGameID
    rw [createBuildResolved_uploads_first db owner gn req hName]
    rw [List.filter_append]
    have hOldNone : ((db.uploads.filter
        (fun u => u.gameId == (resolveGame db owner.id gn).snd.id)).find?
        (fun u2 => (getChannelByName (createBuildResolved db owner gn req).fst
          req.channel u2.id).isSome)) = none := by
      rw [List.find?_eq_none]
      intro u hu
      have humem : u ∈ db.uploads := (List.mem_filter.mp hu).1
      have hlt := hUp u humem
      have hne : ¬u.id = (resolvedUploadOf db owner gn req).snd.id := by
        rw [hfreshid]
        omega
      rw [getChannelByName_after_first_other db owner gn req hName u.id hne]
      simp
    rw [find?_append_of_none _ _ _ hOldNone]
    have hgamefresh : ((resolvedUploadOf db owner gn req).snd.gameId ==
        (resolveGame db owner.id gn).snd.id) = true := by
      rw [resolvedUploadOf_first_push db owner gn req hName]
      simp
    rw [List.filter_cons, if_pos hgamefresh]
    have hq : ((getChannelByName (createBuildResolved db owner gn req).fst
        req.channel (resolvedUploadOf db owner gn req).snd.id).isSome) = true := by
      rw [getChannelByName_after_first_self db owner gn req hName]
      rfl
    exact List.find?_cons_of_pos _ hq
  unfold resolvedUploadOf
  rw [hg]
  exact resolveUpload_found _ _ _ _ _ hfind

/-- First push on an absent channel name: the created build has no
parent. -/
theorem createBuildResolved_first_parent_none (db : Database) (owner : User) (gn : String)
    (req : CreateBuildRequest) (hName : ∀ c ∈ db.channels, c.name ≠ req.channel) :
    (createBuildResolved db owner gn req).snd.parentBuild = none := by
  rw [createBuildResolved_parent]
  have hch : (resolvedUploadOf db owner gn req).fst.channels = db.channels := by
    unfold resolvedUploadOf
    rw [resolveUpload_fst_channels, resolveGame_fst_channels]
  rw [getChannelByName_eq_of_channels_eq hch]
  rw [getChannelByName_of_no_name db req.channel _ hName]
  rfl

/-- Second push with the same request: the created build's parent is the
first push's build id. -/
theorem createBuildResolved_second_parent (db : Database) (owner : User) (gn : String)
    (req : CreateBuildRequest)
    (hName : ∀ c ∈ db.channels, c.name ≠ req.channel)
    (hUp : ∀ u ∈ db.uploads, u.id < db.nextUploadId) :
    (createBuildResolved (createBuildResolved db owner gn req).fst owner gn req).snd.parentBuild =
      some (createBuildResolved db owner gn req).snd.id := by
  rw [createBuildResolved_parent]
  rw [resolvedUploadOf_second_push db owner gn req hName hUp]
  show (getChannelByName (createBuildResolved db owner gn req).fst req.channel
      (resolvedUploadOf db owner gn req).snd.id).bind (fun c => c.currentBuildId) =
    some (createBuildResolved db owner gn req).snd.id
  rw [getChannelByName_after_first_self db owner gn req hName]
  rw [createBuildResolved_snd_id]
  rfl

/-- The serialized CreateBuild response carries the `parentBuild` key
exactly when a parent is set. -/
theorem buildResponseKeys_parent (resp : BuildResponse) :
    "parentBuild" ∈ buildResponseKeys resp ↔ resp.parentBuild.isSome := by
  unfold buildResponseKeys
  cases hpb : resp.parentBuild with
  | none =>
    simp only [hpb]
    decide
  | some p =>
    simp only [hpb, Option.isSome_some]
    rw [iff_true]
    decide

/-- A successful CreateBuild decomposes into its validation facts and the
resolved pipeline. -/
theorem createBuild_ok_elim (db : Database) (user : User) (req : CreateBuildRequest)
    (dbr : Database) (resp : BuildResponse) (h : createBuild db user req = .ok (dbr, resp)) :
    ∃ username gamename owner,
      parseTarget req.target = some (username, gamename) ∧
      getUserByUsername db username = some owner ∧
      createBuildResolved db owner gamename req = (dbr, resp) := by
  unfold createBuild at h
  split at h
  · exact absurd h (by simp)
  · split at h
    · exact absurd h (by simp)
    · split at h
      · exact absurd h (by simp)
      · split at h
        · exact absurd h (by simp)
        next owner howner =>
          rename_i username gamename heqparse hcan xowner
          simp only [Except.ok.injEq] at h
          exact ⟨username, gamename, owner, heqparse, howner, h⟩

/-- C6: CONFIRMED.  For every successful CreateBuild, the new build's
parent (and the response's `parentBuild` value) is exactly the current
build of the channel of that name on the resolved upload as observed
before the call, and the serialized response carries the `parentBuild`
key exactly when a parent exists (absence, not null, signals the first
build).  In particular, pushing the same request twice starting from a
store without that channel name (and with well-formed upload ids) gives a
first response without the `parentBuild` key and a second response whose
`parentBuild.id` equals the first build's id. -/
theorem createBuild_parent_linkage
    (db : Database) (user : User) (req : CreateBuildRequest)
    (db1 db2 : Database) (r1 r2 : BuildResponse)
    (h1 : createBuild db user req = .ok (db1, r1))
    (h2 : createBuild db1 user req = .ok (db2, r2))
    (hName : ∀ c ∈ db.channels, c.name ≠ req.channel)
    (hUp : ∀ u ∈ db.uploads, u.id < db.nextUploadId) :
    (r1.parentBuild = none ∧ "parentBuild" ∉ buildResponseKeys r1) ∧
    (r2.parentBuild = some r1.id ∧ "parentBuild" ∈ buildResponseKeys r2) ∧
    (∀ (dbA : Database) (uA : User) (reqA : CreateBuildRequest) (dbB : Database)
        (rA : BuildResponse), createBuild dbA uA reqA = .ok (dbB, rA) →
      rA.parentBuild =
        (getChannelByName dbA reqA.channel rA.uploadId).bind (fun c => c.currentBuildId) ∧
      ("parentBuild" ∈ buildResponseKeys rA ↔ rA.parentBuild.isSome)) := by
  obtain ⟨u1, g1, o1, hp1, ho1, hc1⟩ := createBuild_ok_elim db user req db1 r1 h1
  obtain ⟨u2, g2, o2, hp2, ho2, hc2⟩ := createBuild_ok_elim db1 user req db2 r2 h2
  rw [hp1] at hp2
  have hpair : (u1, g1) = (u2, g2) := Option.some.inj hp2
  have hu : u1 = u2 := congrArg Prod.fst hpair
  have hg : g1 = g2 := congrArg Prod.snd hpair
  subst hu
  subst hg
  have hdbfst : (createBuildResolved db o1 g1 req).fst = db1 := by
    rw [hc1]
  have hr1 : (createBuildResolved db o1 g1 req).snd = r1 := by
    rw [hc1]
  have ho2x : getUserByUsername db1 u1 = some o1 := by
    rw [← hdbfst]
    show (createBuildResolved db o1 g1 req).fst.users.find? _ = _
    rw [createBuildResolved_users]
    exact ho1
  have hoo : o1 = o2 := Option.some.inj (ho2x.symm.trans ho2)
  subst hoo
  have hr2 : (createBuildResolved db1 o1 g1 req).snd = r2 := by
    rw [hc2]
  have hparent1 : r1.parentBuild = none := by
    rw [← hr1]
    exact createBuildResolved_first_parent_none db o1 g1 req hName
  have hparent2 : r2.parentBuild = some r1.id := by
    rw [← hr2, ← hdbfst]
    rw [createBuildResolved_second_parent db o1 g1 req hName hUp]
    rw [hr1]
  refine ⟨⟨hparent1, ?_⟩, ⟨hparent2, ?_⟩, ?_⟩
  · rw [buildResponseKeys_parent, hparent1]
    simp
  · rw [buildResponseKeys_parent, hparent2]
    rfl
  · intro dbA uA reqA dbB rA hA
    obtain ⟨uu, gg, oo, hpp, hoo2, hcc⟩ := createBuild_ok_elim dbA uA reqA dbB rA hA
    have hrA : (createBuildResolved dbA oo gg reqA).snd = rA := by
      rw [hcc]
    refine ⟨?_, buildResponseKeys_parent rA⟩
    rw [← hrA, createBuildResolved_parent]
    have hch : (resolvedUploadOf dbA oo gg reqA).fst.channels = dbA.channels := by
      unfold resolvedUploadOf
      rw [resolveUpload_fst_channels, resolveGame_fst_channels]
    rw [getChannelByName_eq_of_channels_eq hch]
    rfl

/-- C6 witness: two pushes of the same request to a fresh store: the
first response has no `parentBuild` key, the second's parent id is the
first build's id. -/
theorem createBuild_parent_linkage_witness :
    ∃ db1 r1 db2 r2,
      createBuild freshStore aliceUser reqMain = .ok (db1, r1) ∧
      createBuild db1 aliceUser reqMain = .ok (db2, r2) ∧
      (r1.parentBuild = none ∧ "parentBuild" ∉ buildResponseKeys r1) ∧
      (r2.parentBuild = some r1.id ∧ "parentBuild" ∈ buildResponseKeys r2) :=
  ⟨_, _, _, _, rfl, rfl,
   (createBuild_parent_linkage freshStore aliceUser reqMain _ _ _ _ rfl rfl
      (by decide) (by decide)).1,
   (createBuild_parent_linkage freshStore aliceUser reqMain _ _ _ _ rfl rfl
      (by decide) (by decide)).2.1⟩
